import Mathlib

/-!
Verification of `server.js` (EchoVerse AI-powered audiobook gateway).

The file shallowly embeds the three Express request handlers
(`/api/generate`, `/api/tts`, `/api/stt`) of `src/server.js` as pure Lean
functions.  JavaScript `undefined`/`null` values are modelled with
`Option`; the external provider SDK calls (`wx.generateText`,
`tts.synthesize`, `stt.recognize`) are modelled as oracle functions passed
to the handler, returning either a provider response or a thrown error; a
handler result records the HTTP response together with the observable
effects the claims talk about (whether the provider was invoked, whether
`fs.unlink` was issued).
-/

/-- JavaScript `a || b` for an optional string `a`: `b` when `a` is
`undefined` or the falsy empty string, `a`'s value otherwise. -/
def jsOr (a : Option String) (b : String) : String :=
  match a with
  | none => b
  | some s => if s = "" then b else s

/-- Process environment (`process.env`), read-only after startup.  The
environment is a map of arbitrary variables; the fields list the ones the
spec's configuration section mentions.  `server.js` reads only
`WATSONX_PROJECT_ID` and `TTS_VOICE` of these; `TTS_FORMAT` is present so
that a configured default audio format is expressible. -/
structure Env where
  WATSONX_PROJECT_ID : Option String
  TTS_VOICE : Option String
  TTS_FORMAT : Option String
  deriving DecidableEq, Repr

/-- Outcome of an external provider SDK call: a response, or a thrown
error carrying an arbitrary upstream payload. -/
inductive ProviderOutcome (α : Type) where
  | ok (r : α)
  | err (e : String)
  deriving DecidableEq, Repr

/-- Response body written by the handler: `res.json(\x7berror\x7d)`,
`res.json(\x7btext\x7d)`, `res.json(\x7btranscript\x7d)` or
`res.send(audio)`. -/
inductive Body where
  | jsonError (message : String)
  | jsonText (text : String)
  | jsonTranscript (transcript : String)
  | bytes (audio : List Nat)
  deriving DecidableEq, Repr

/-- The HTTP response a handler sends: status code, `Content-Type` header
(`res.json` sets `application/json`; `/api/tts` sets it explicitly via
`res.setHeader`) and body. -/
structure HttpResponse where
  status : Nat
  contentType : Option String
  body : Body
  deriving DecidableEq, Repr

/- ---------- /api/generate (watsonx Granite) ---------- -/

/-- JSON body of a `/api/generate` request; absent fields are `none`. -/
structure GenBody where
  prompt : Option String
  task : Option String
  tone : Option String
  deriving DecidableEq, Repr

/-- Decoding parameters sent to the generation provider
(`parameters: \x7b ... \x7d` in `generateParams`). -/
structure DecodingParams where
  decoding_method : String
  max_new_tokens : Nat
  stop_sequences : List String
  temperature : Rat
  deriving DecidableEq, Repr

/-- The argument object passed to `wx.generateText`. -/
structure GenerateParams where
  modelId : String
  input : Option String
  projectId : Option String
  parameters : DecodingParams
  context_system_prompt : String
  deriving DecidableEq, Repr

/-- `GRANITE_MODEL` constant of `server.js`. -/
def GRANITE_MODEL : String := "ibm/granite-13b-instruct-v2"

/-- The template-literal system instruction built by the handler:
`You are EchoVerse's writer. Task: ${task}.\nTone: ${tone}. ...`. -/
def systemInstruction (task tone : String) : String :=
  "You are EchoVerse\x27s writer. Task: " ++ task ++
    ".\nTone: " ++ tone ++
    ". Keep meaning intact. Output only the transformed text."

/-- The `generateParams` object the handler constructs from the request
body (destructuring defaults `task = "rewrite"`, `tone = "Neutral"`) and
the environment. -/
def genParams (env : Env) (body : GenBody) : GenerateParams :=
  { modelId := GRANITE_MODEL
    input := body.prompt
    projectId := env.WATSONX_PROJECT_ID
    parameters :=
      { decoding_method := "greedy"
        max_new_tokens := 400
        stop_sequences := []
        temperature := (0.2 : Rat) }
    context_system_prompt :=
      systemInstruction (body.task.getD "rewrite") (body.tone.getD "Neutral") }

/-- Nested `result` object of a watsonx generation response. -/
structure WxInner where
  generated_text : Option String
  output_text : Option String
  deriving DecidableEq, Repr

/-- A watsonx generation response as the normalizer inspects it. -/
structure WxResponse where
  result : Option WxInner
  generated_text : Option String
  deriving DecidableEq, Repr

/-- Wrap a string in JSON double quotes. -/
def jsonQuote (s : String) : String := "\"" ++ s ++ "\""

/-- `JSON.stringify` of the nested `result` object (absent fields are
omitted, as `JSON.stringify` drops `undefined` properties). -/
def stringifyInner (i : WxInner) : String :=
  "\x7b" ++ String.intercalate ","
    ((match i.generated_text with
      | some s => [jsonQuote "generated_text" ++ ":" ++ jsonQuote s]
      | none => []) ++
     (match i.output_text with
      | some s => [jsonQuote "output_text" ++ ":" ++ jsonQuote s]
      | none => [])) ++ "\x7d"

/-- `JSON.stringify(result)`: the whole provider response serialized as
text. -/
def stringifyResponse (r : WxResponse) : String :=
  "\x7b" ++ String.intercalate ","
    ((match r.result with
      | some i => [jsonQuote "result" ++ ":" ++ stringifyInner i]
      | none => []) ++
     (match r.generated_text with
      | some s => [jsonQuote "generated_text" ++ ":" ++ jsonQuote s]
      | none => [])) ++ "\x7d"

/-- The response normalization of the `/api/generate` handler:
`result?.result?.generated_text ?? result?.generated_text ??
result?.result?.output_text ?? JSON.stringify(result)`. -/
def extractText (r : WxResponse) : String :=
  match r.result.bind (fun i => i.generated_text) with
  | some t => t
  | none =>
    match r.generated_text with
    | some t => t
    | none =>
      match r.result.bind (fun i => i.output_text) with
      | some t => t
      | none => stringifyResponse r

/-- Observable outcome of one `/api/generate` request: the HTTP response
and whether `wx.generateText` was invoked. -/
structure GenHandlerResult where
  response : HttpResponse
  providerCalled : Bool
  deriving Repr

/-- The `/api/generate` handler: builds `generateParams`, calls the
provider, and either returns `\x7btext\x7d` or falls into the catch block
returning status 500 with the fixed error body. -/
def generateHandler (env : Env) (body : GenBody)
    (wxGenerateText : GenerateParams → ProviderOutcome WxResponse) :
    GenHandlerResult :=
  let p := genParams env body
  match wxGenerateText p with
  | .ok r =>
    { response :=
        { status := 200
          contentType := some "application/json"
          body := .jsonText (extractText r) }
      providerCalled := true }
  | .err _ =>
    { response :=
        { status := 500
          contentType := some "application/json"
          body := .jsonError "Granite generation failed" }
      providerCalled := true }

/- ---------- /api/tts (IBM Watson Text-to-Speech) ---------- -/

/-- JSON body of a `/api/tts` request; absent fields are `none`. -/
structure TtsBody where
  text : Option String
  voice : Option String
  format : Option String
  deriving DecidableEq, Repr

/-- The argument object passed to `tts.synthesize`. -/
structure SynthParams where
  text : Option String
  accept : String
  voice : String
  deriving DecidableEq, Repr

/-- Observable outcome of one `/api/tts` request: the HTTP response, the
parameters sent to the provider (when it was invoked). -/
structure TtsHandlerResult where
  response : HttpResponse
  sentParams : Option SynthParams
  deriving DecidableEq, Repr

/-- The `/api/tts` handler.  Destructuring defaults:
`voice = process.env.TTS_VOICE || "en-US_AllisonV3Voice"`,
`format = "audio/mp3"`.  The provider result is always passed through
`tts.repairWavHeaderStream` (modelled by the `repairWavHeaderStream`
oracle argument) before `res.send`; on a throw the catch block returns
status 500 with the fixed error body. -/
def ttsHandler (env : Env) (body : TtsBody)
    (synthesize : SynthParams → ProviderOutcome (List Nat))
    (repairWavHeaderStream : List Nat → List Nat) : TtsHandlerResult :=
  let voice := body.voice.getD (jsOr env.TTS_VOICE "en-US_AllisonV3Voice")
  let format := body.format.getD "audio/mp3"
  let p : SynthParams := { text := body.text, accept := format, voice := voice }
  match synthesize p with
  | .ok result =>
    let audio := repairWavHeaderStream result
    { response :=
        { status := 200, contentType := some format, body := .bytes audio }
      sentParams := some p }
  | .err _ =>
    { response :=
        { status := 500
          contentType := some "application/json"
          body := .jsonError "TTS failed" }
      sentParams := some p }

/- ---------- /api/stt (IBM Watson Speech-to-Text) ---------- -/

/-- The multipart upload record `req.file` produced by multer: the
temporary path the audio was written to and its MIME type. -/
structure UploadedFile where
  path : String
  mimetype : Option String
  deriving DecidableEq, Repr

/-- The argument object passed to `stt.recognize` (the audio stream is
backed by the temporary file at `path`). -/
structure RecognizeParams where
  audioPath : String
  contentType : String
  model : String
  deriving DecidableEq, Repr

/-- One ranked alternative transcription of a recognized segment. -/
structure SttAlternative where
  transcript : Option String
  deriving DecidableEq, Repr

/-- One recognized segment with its ranked alternatives. -/
structure SttSegment where
  alternatives : Option (List SttAlternative)
  deriving DecidableEq, Repr

/-- The `result` object of a recognition response. -/
structure SttResult where
  results : Option (List SttSegment)
  deriving DecidableEq, Repr

/-- A recognition response as the normalizer inspects it. -/
structure SttResponse where
  result : Option SttResult
  deriving DecidableEq, Repr

/-- JavaScript `String.prototype.trim()`: the string with leading and
trailing whitespace removed. -/
def jsTrim (s : String) : String :=
  ⟨((s.data.dropWhile Char.isWhitespace).reverse.dropWhile
      Char.isWhitespace).reverse⟩

/-- Per-segment extraction `r.alternatives?.[0]?.transcript || ""`. -/
def topAlternative (seg : SttSegment) : String :=
  jsOr ((seg.alternatives.bind List.head?).bind (fun a => a.transcript)) ""

/-- The transcript normalization of the `/api/stt` handler:
`sttResp?.result?.results?.map(r => r.alternatives?.[0]?.transcript || "")
.join(" ").trim() || ""`. -/
def extractTranscript (resp : SttResponse) : String :=
  match resp.result.bind (fun r => r.results) with
  | none => ""
  | some segs =>
    jsOr (some (jsTrim (String.intercalate " " (segs.map topAlternative)))) ""

/-- Observable outcome of one `/api/stt` request: the HTTP response,
whether `stt.recognize` was invoked, and whether `fs.unlink` was issued
for the temporary file. -/
structure SttHandlerResult where
  response : HttpResponse
  providerCalled : Bool
  unlinkIssued : Bool
  deriving DecidableEq, Repr

/-- The `/api/stt` handler.  When `req.file` is absent, `req.file.path`
throws a TypeError before any provider call, landing in the catch block.
Otherwise the provider is invoked; on success `fs.unlink(audioPath, ...)`
is issued and the transcript returned; on a throw the catch block returns
status 500 with the fixed error body (and no unlink is reached). -/
def sttHandler (file : Option UploadedFile)
    (recognize : RecognizeParams → ProviderOutcome SttResponse) :
    SttHandlerResult :=
  match file with
  | none =>
    { response :=
        { status := 500
          contentType := some "application/json"
          body := .jsonError "STT failed" }
      providerCalled := false
      unlinkIssued := false }
  | some f =>
    let p : RecognizeParams :=
      { audioPath := f.path
        contentType := jsOr f.mimetype "audio/webm"
        model := "en-US_BroadbandModel" }
    match recognize p with
    | .ok sttResp =>
      { response :=
          { status := 200
            contentType := some "application/json"
            body := .jsonTranscript (extractTranscript sttResp) }
        providerCalled := true
        unlinkIssued := true }
    | .err _ =>
      { response :=
          { status := 500
            contentType := some "application/json"
            body := .jsonError "STT failed" }
        providerCalled := true
        unlinkIssued := false }

/- ---------- Spec-side definitions (refinement targets) ---------- -/

/-- Modelled from the spec: the claimed per-segment extraction — the
top-ranked (first) alternative transcription of a segment, an empty string
when the segment has no alternatives. -/
def specTopAlternative (seg : SttSegment) : String :=
  match seg.alternatives with
  | some (a :: _) => a.transcript.getD ""
  | _ => ""

/-- Modelled from the spec: the claimed transcript — top alternatives of
all segments in order, joined with a single space, then trimmed. -/
def specTranscript (segs : List SttSegment) : String :=
  jsTrim (String.intercalate " " (segs.map specTopAlternative))

/- ---------- Helper lemmas ---------- -/

/-- `x || ""` is the identity on defined strings and `""` on `undefined`. -/
theorem jsOr_empty_default (a : Option String) : jsOr a "" = a.getD "" := by
  cases a with
  | none => rfl
  | some s =>
    by_cases h : s = "" <;> simp [jsOr, h]

/-- The code's per-segment extraction agrees with the spec's words. -/
theorem topAlternative_eq_spec (seg : SttSegment) :
    topAlternative seg = specTopAlternative seg := by
  unfold topAlternative specTopAlternative
  rw [jsOr_empty_default]
  cases h : seg.alternatives with
  | none => simp [h]
  | some alts =>
    cases alts with
    | nil => simp
    | cons a rest => cases a.transcript <;> simp [Option.getD]

/- ---------- Claim theorems ---------- -/

/-- Claim C1 (code bug): the spec requires the temporary uploaded-audio
file to be deleted whether the recognition call succeeds or throws, but
the code issues `fs.unlink` only on the success path — it sits inside the
`try` block after `await stt.recognize`, so when the provider throws,
control jumps to the catch block and no unlink is ever issued.  The
theorem evaluates the handler on the failing input (an uploaded file with
a throwing provider): `unlinkIssued` is `false`, while on the success
path it is `true`. -/
theorem stt_unlink_skipped_on_failure (f : UploadedFile) (e : String)
    (resp : SttResponse) :
    (sttHandler (some f) (fun _ => .err e)).unlinkIssued = false
    ∧ (sttHandler (some f) (fun _ => .ok resp)).unlinkIssued = true :=
  ⟨rfl, rfl⟩

/-- Claim C2 (confirmed): the generation normalizer returns the first
present value among `r.result.generated_text`, `r.generated_text`,
`r.result.output_text`, in this exact priority order, and serializes the
entire response as text when all three are absent; in particular a
response holding both a generated_text-style and an output_text-style
field yields the generated_text-style value. -/
theorem extractText_priority_order (r : WxResponse) :
    extractText r =
      (((r.result.bind (fun i => i.generated_text)).orElse (fun _ =>
          r.generated_text)).orElse (fun _ =>
          r.result.bind (fun i => i.output_text))).getD (stringifyResponse r)
    ∧ extractText ⟨some ⟨some "from generated_text", some "from output_text"⟩,
        none⟩ = "from generated_text"
    ∧ extractText ⟨none, none⟩ = stringifyResponse ⟨none, none⟩ := by
  refine ⟨?_, by decide, by decide⟩
  unfold extractText
  cases h1 : r.result.bind (fun i => i.generated_text) <;>
    cases h2 : r.generated_text <;>
      cases h3 : r.result.bind (fun i => i.output_text) <;>
        simp [h1, h2, h3, Option.orElse]

/-- Claim C3 (confirmed): for every segment list the transcript is the
top-ranked alternative of each segment (empty string for a segment with
no alternatives), joined in order with a single space and trimmed; the
empty segment list yields the empty string, and the two-segment
hello/world example yields "hello world". -/
theorem transcript_normalization_matches_spec (segs : List SttSegment) :
    extractTranscript { result := some { results := some segs } } =
      specTranscript segs
    ∧ extractTranscript ⟨some ⟨some []⟩⟩ = ""
    ∧ extractTranscript
        ⟨some ⟨some [⟨some [⟨some "hello"⟩]⟩, ⟨some [⟨some "world"⟩]⟩]⟩⟩ =
        "hello world" := by
  refine ⟨?_, by decide, by decide⟩
  unfold extractTranscript specTranscript
  rw [show topAlternative = specTopAlternative from
    funext topAlternative_eq_spec]
  simp [jsOr_empty_default]

/-- Claim C4 (confirmed): on every provider throw, each of the three
endpoints answers HTTP 500 with its fixed, endpoint-specific generic JSON
error body; the response is one constant per endpoint for every upstream
error payload `e`, so no upstream content can appear in it. -/
theorem provider_error_collapse (env : Env) (gb : GenBody) (tb : TtsBody)
    (f : UploadedFile) (e : String) (repair : List Nat → List Nat) :
    (generateHandler env gb (fun _ => .err e)).response =
      ⟨500, some "application/json", .jsonError "Granite generation failed"⟩
    ∧ (ttsHandler env tb (fun _ => .err e) repair).response =
      ⟨500, some "application/json", .jsonError "TTS failed"⟩
    ∧ (sttHandler (some f) (fun _ => .err e)).response =
      ⟨500, some "application/json", .jsonError "STT failed"⟩ :=
  ⟨rfl, rfl, rfl⟩

/-- Claim C5, counterexample: at task "rewrite" and tone "Neutral" the
system instruction built by the handler is not the fixed-form string the
claim states — the code opens with "You are EchoVerse\x27s writer" rather
than "You are a writer" and puts a newline, not a space, between the task
and tone segments. -/
theorem systemInstruction_differs_from_claimed_form :
    systemInstruction "rewrite" "Neutral" ≠
      "You are a writer. Task: rewrite. Tone: Neutral. Keep meaning intact. Output only the transformed text." := by
  decide

/-- Claim C5, amended: the system instruction sent upstream is exactly
"You are EchoVerse\x27s writer. Task: \x7bt\x7d.\nTone: \x7bv\x7d. Keep
meaning intact. Output only the transformed text.", containing the caller
task and tone verbatim, attached as the side-channel
`context.system_prompt` while the prompt is passed unmodified as `input`. -/
theorem systemInstruction_actual_form (env : Env) (b : GenBody)
    (t v : String) :
    (genParams env { b with task := some t, tone := some v
      }).context_system_prompt =
      "You are EchoVerse\x27s writer. Task: " ++ t ++ ".\nTone: " ++ v ++
        ". Keep meaning intact. Output only the transformed text."
    ∧ (genParams env b).input = b.prompt :=
  ⟨rfl, rfl⟩

/-- Claim C6, counterexample: a generation request whose body carries no
prompt at all is not rejected — the provider is invoked and, when the
provider replies, the caller receives a 200, contradicting the claim that
a request missing its required field is rejected without a provider
call. -/
theorem generate_missing_prompt_still_calls_provider :
    (generateHandler ⟨none, none, none⟩ ⟨none, none, none⟩
        (fun _ => .ok ⟨some ⟨some "out", none⟩, none⟩)).providerCalled = true
    ∧ (generateHandler ⟨none, none, none⟩ ⟨none, none, none⟩
        (fun _ => .ok ⟨some ⟨some "out", none⟩, none⟩)).response.status =
        200 :=
  ⟨rfl, rfl⟩

/-- Claim C6, amended: no presence validation happens before the provider
call — every generation request, including one with an absent or empty
prompt, invokes the provider, and the (possibly missing) prompt is passed
through as the `input` field unchanged. -/
theorem generate_never_validates_prompt (env : Env) (body : GenBody)
    (wxGenerateText : GenerateParams → ProviderOutcome WxResponse) :
    (generateHandler env body wxGenerateText).providerCalled = true
    ∧ (genParams env body).input = body.prompt := by
  refine ⟨?_, rfl⟩
  unfold generateHandler
  cases h : wxGenerateText (genParams env body) <;> simp [h]

/-- Claim C7 (confirmed): for every environment, request body (hence every
format value, WAV or not) and provider result, the bytes returned by a
successful synthesis response are the provider result passed through the
WAV-header-repair transform; no input returns the provider bytes
unrepaired. -/
theorem tts_repair_always_applied (env : Env) (tb : TtsBody)
    (repairWavHeaderStream : List Nat → List Nat) (result : List Nat) :
    ((ttsHandler env tb (fun _ => .ok result)
        repairWavHeaderStream).response).body =
      .bytes (repairWavHeaderStream result) :=
  rfl

/-- Claim C8, counterexample: with a configured default audio format
`TTS_FORMAT = "audio/wav"` in the environment and the request format
omitted, the response Content-Type is the hardcoded "audio/mp3", not the
configured value — the format default does not come from process
configuration. -/
theorem tts_format_default_ignores_configuration :
    ((ttsHandler ⟨none, none, some "audio/wav"⟩ ⟨some "hi", none, none⟩
        (fun _ => .ok [1, 2]) id).response).contentType = some "audio/mp3"
    ∧ ("audio/mp3" : String) ≠ "audio/wav" :=
  ⟨rfl, by decide⟩

/-- Claim C8, amended: when voice is omitted it defaults to the
configured `TTS_VOICE` (falling back to the literal
"en-US_AllisonV3Voice" when that is unset or empty); when format is
omitted it defaults to the hardcoded constant "audio/mp3"; and the
Content-Type of a successful response equals the possibly-defaulted
format. -/
theorem tts_defaults_and_content_type (env : Env) (tb : TtsBody)
    (bs : List Nat) (repair : List Nat → List Nat) :
    (ttsHandler env { tb with voice := none, format := none }
        (fun _ => .ok bs) repair).sentParams =
      some { text := tb.text, accept := "audio/mp3",
             voice := jsOr env.TTS_VOICE "en-US_AllisonV3Voice" }
    ∧ ((ttsHandler env tb (fun _ => .ok bs) repair).response).contentType =
      some (tb.format.getD "audio/mp3") :=
  ⟨rfl, rfl⟩

/-- Claim C9 (confirmed): for every environment and every request body,
the decoding parameters sent to the generation provider are the fixed
constants greedy decoding, 400 max new tokens, no stop sequences and
temperature 0.2 — nothing in the body can alter them. -/
theorem decoding_params_fixed (env : Env) (body : GenBody) :
    (genParams env body).parameters =
      { decoding_method := "greedy", max_new_tokens := 400,
        stop_sequences := [], temperature := (0.2 : Rat) } :=
  rfl

/-- Claim C10 (confirmed): a `/api/stt` request with no uploaded "audio"
file never reaches the provider (the `req.file.path` access throws
first), and the caller receives exactly the same generic 500
recognition-failure body as for an upstream provider failure — not a
distinct 4xx validation response. -/
theorem stt_missing_file_generic_500
    (recognize : RecognizeParams → ProviderOutcome SttResponse)
    (f : UploadedFile) (e : String) :
    (sttHandler none recognize).providerCalled = false
    ∧ (sttHandler none recognize).response =
        ⟨500, some "application/json", .jsonError "STT failed"⟩
    ∧ (sttHandler none recognize).response =
        (sttHandler (some f) (fun _ => .err e)).response :=
  ⟨rfl, rfl, rfl⟩
